import Mathlib

/-!
Verification of the battle_bucks commerce core against its specification.

The development shallowly embeds the purchase, fulfillment, inventory,
character-profile and equipment services (`purchase.service.ts`,
`character-profiles` service) over an explicit database state `Db`.
Prisma tables become lists of rows; `findFirst`/`findUnique` become
`List.find?`; `updateMany` becomes `List.map` guarded by the `where`
predicate; a `$transaction` whose callback throws is modelled by an
`Except` value whose `error` case persists nothing (rollback).
JavaScript truthiness of optional strings and of `metadata.gemAmount`
is modelled explicitly (`strTruthy`, `gemAmount = 0` for a falsy value).
-/

namespace BattleBucks

/-- Item stacking class, the `StoreItem.type` column: `CONSUMABLE` rows
stack quantity, `NON_CONSUMABLE` ("unique") rows allow one copy per user. -/
inductive ItemType
  | CONSUMABLE
  | NON_CONSUMABLE
deriving DecidableEq, Repr

/-- Delivery channel of a store item (`deliveryType` column).
`IN_GAME` is the spec's INSTANT, `SHOPIFY` the spec's EXTERNAL_SHIP. -/
inductive DeliveryType
  | IN_GAME
  | EMAIL
  | SHOPIFY
  | FUNCTIONAL
deriving DecidableEq, Repr

/-- Store item category, used only for default equipment-slot derivation. -/
inductive Category
  | SKIN
  | UTILITY
  | CONSUMABLE
  | DIGITAL_REWARD
  | PHYSICAL_MERCH
deriving DecidableEq, Repr

/-- Fulfillment lifecycle status. -/
inductive FulStatus
  | PENDING
  | PROCESSING
  | COMPLETED
  | FAILED
  | RETRY
deriving DecidableEq, Repr

/-- Purchase (order) status. -/
inductive PurchaseStatus
  | PENDING
  | COMPLETED
  | FAILED
  | REFUNDED
deriving DecidableEq, Repr

/-- Wallet transaction kind. -/
inductive TxType
  | DEBIT
  | CREDIT
deriving DecidableEq, Repr

/-- Reference id carried by a wallet transaction row: the literal
`'purchase-pending'` placeholder, the purchase id backfilled in step 9 of
the transaction, or the `gem-pack-<itemId>` tag of a functional credit. -/
inductive RefId
  | pending
  | purchaseRef (id : Nat)
  | gemPack (itemId : Nat)
deriving DecidableEq, Repr

/-- Catalog row (`StoreItem`). `gemAmount = 0` models a missing or zero
`metadata.gemAmount` (both falsy in JS); `instant` is the truthiness of
`metadata.instant`; `slotOverride`/`weaponClass` come from
`gameSpecificData`. -/
structure StoreItem where
  id : Nat
  name : String
  price : Nat
  itemType : ItemType
  deliveryType : DeliveryType
  category : Category
  isActive : Bool
  gemAmount : Nat
  instant : Bool
  gameId : Option Nat
  slotOverride : Option String
  weaponClass : Option String
deriving DecidableEq, Repr

/-- Wallet row (`UserWallet`); `userId` is unique in the schema. -/
structure Wallet where
  id : Nat
  userId : Nat
  balance : Int
deriving DecidableEq, Repr

/-- Wallet ledger row (`WalletTransaction`). -/
structure WalletTx where
  walletId : Nat
  txType : TxType
  amount : Nat
  description : String
  referenceId : RefId
deriving DecidableEq, Repr

/-- Order row (`Purchase`); `createdAt` is a millisecond timestamp. -/
structure Purchase where
  id : Nat
  userId : Nat
  totalAmount : Nat
  status : PurchaseStatus
  createdAt : Nat
deriving DecidableEq, Repr

/-- Order line row (`PurchaseItem`). -/
structure PurchaseItem where
  purchaseId : Nat
  itemId : Nat
  quantity : Nat
  unitPrice : Nat
  totalPrice : Nat
deriving DecidableEq, Repr

/-- Inventory row (`UserInventory`); the pair (userId, itemId) is the
unique compound key. -/
structure InventoryEntry where
  userId : Nat
  itemId : Nat
  quantity : Nat
  isConsumed : Bool
deriving DecidableEq, Repr

/-- Fulfillment row (`ItemFulfillment`); the JSON `deliveryData` blob is
not modelled, no claim mentions it. -/
structure Fulfillment where
  purchaseId : Nat
  userId : Nat
  itemId : Nat
  status : FulStatus
  deliveryType : DeliveryType
  attempts : Nat
  lastAttempt : Option Nat
  completedAt : Option Nat
deriving DecidableEq, Repr

/-- Game row, needed by profile creation's existence check. -/
structure Game where
  id : Nat
  isActive : Bool
deriving DecidableEq, Repr

/-- Character profile row; `gameId = none` is the platform-wide scope. -/
structure CharacterProfile where
  id : Nat
  userId : Nat
  gameId : Option Nat
  name : String
  isActive : Bool
deriving DecidableEq, Repr

/-- Equipped item row (`CharacterEquippedItem`). -/
structure EquippedItem where
  id : Nat
  profileId : Nat
  itemId : Nat
  slot : String
deriving DecidableEq, Repr

/-- Whole database state: one list of rows per Prisma table touched by
the purchase / profile / equipment services. -/
structure Db where
  catalog : List StoreItem
  games : List Game
  wallets : List Wallet
  walletTxs : List WalletTx
  purchases : List Purchase
  purchaseItems : List PurchaseItem
  inventory : List InventoryEntry
  fulfillments : List Fulfillment
  profiles : List CharacterProfile
  equipped : List EquippedItem
deriving DecidableEq, Repr

/-- Purchase request line (`PurchaseItemDto`). -/
structure PurchaseLine where
  itemId : Nat
  quantity : Nat
deriving DecidableEq, Repr

/-- NestJS exception class thrown at a given failure site. -/
inductive ExcClass
  | NotFoundE
  | BadRequestE
  | ConflictE
  | InternalE
deriving DecidableEq, Repr

/-- Failure modes, one constructor per distinct throw site of the
embedded services (each carries a distinct message in the source). -/
inductive Err
  | duplicatePurchase
  | itemsRequired
  | itemsNotFound
  | itemMissing
  | badQuantity
  | nonConsumableQuantity
  | walletNotFound
  | insufficientGems
  | alreadyOwned
  | insufficientGemsTx
  | purchaseNotFound
  | noFailedFulfillments
  | gameNotFound
  | duplicateName
  | profileNotFound
  | itemNotInInventory
  | scopeMismatch
  | consumableEquip
  | equippedItemNotFound
  | internalError
deriving DecidableEq, Repr

/-- Exception class used by the source at each throw site. -/
def Err.excClass : Err → ExcClass
  | .duplicatePurchase => .ConflictE
  | .itemsRequired => .BadRequestE
  | .itemsNotFound => .NotFoundE
  | .itemMissing => .NotFoundE
  | .badQuantity => .BadRequestE
  | .nonConsumableQuantity => .BadRequestE
  | .walletNotFound => .NotFoundE
  | .insufficientGems => .BadRequestE
  | .alreadyOwned => .BadRequestE
  | .insufficientGemsTx => .BadRequestE
  | .purchaseNotFound => .NotFoundE
  | .noFailedFulfillments => .BadRequestE
  | .gameNotFound => .BadRequestE
  | .duplicateName => .ConflictE
  | .profileNotFound => .NotFoundE
  | .itemNotInInventory => .NotFoundE
  | .scopeMismatch => .BadRequestE
  | .consumableEquip => .BadRequestE
  | .equippedItemNotFound => .NotFoundE
  | .internalError => .InternalE

/-- Truthiness of an optional JS string: absent and empty are falsy. -/
def strTruthy : Option String → Option String
  | none => none
  | some s => if s.isEmpty then none else some s

/-- Duplicate-purchase suppression query (`checkDuplicatePurchase`): a
purchase of this user created within the trailing five minutes
(`createdAt >= now - 5*60*1000`). The supplied idempotency key is not
consulted. -/
def checkDuplicatePurchase (db : Db) (userId now : Nat) : Bool :=
  db.purchases.any fun p => p.userId == userId && decide (now - 300000 ≤ p.createdAt)

/-- Cost and validity of one request line against the resolved store
items, mirroring the per-line body of `validatePurchaseItems`. -/
def lineCost (storeItems : List StoreItem) (line : PurchaseLine) : Except Err Nat :=
  match storeItems.find? (fun si => si.id == line.itemId) with
  | none => .error .itemMissing
  | some si =>
    if line.quantity == 0 || 100 < line.quantity then .error .badQuantity
    else if si.itemType == .NON_CONSUMABLE && line.quantity != 1 then
      .error .nonConsumableQuantity
    else .ok (si.price * line.quantity)

/-- Total cost accumulation loop of `validatePurchaseItems`. -/
def totalCostOf (storeItems : List StoreItem) (items : List PurchaseLine) : Except Err Nat :=
  items.foldlM (fun acc line => do
    let c ← lineCost storeItems line
    pure (acc + c)) 0

/-- Request validation (`validatePurchaseItems`): non-empty line list,
all referenced items present and active, quantities in [1, 100],
non-consumables bought with quantity 1; returns the resolved items and
the total cost. -/
def validatePurchaseItems (db : Db) (items : List PurchaseLine) :
    Except Err (List StoreItem × Nat) :=
  if items.isEmpty then .error .itemsRequired
  else
    let itemIds := items.map (·.itemId)
    let storeItems := db.catalog.filter fun si => itemIds.contains si.id && si.isActive
    if storeItems.length != itemIds.length then .error .itemsNotFound
    else do
      let total ← totalCostOf storeItems items
      pure (storeItems, total)

/-- Wallet lookup (`getUserWallet`), `findUnique` on the unique `userId`. -/
def getUserWallet (db : Db) (userId : Nat) : Except Err Wallet :=
  match db.wallets.find? (fun w => w.userId == userId) with
  | none => .error .walletNotFound
  | some w => .ok w

/-- One line triggers the unique-ownership conflict when its item is
`NON_CONSUMABLE` and an inventory row for (userId, itemId) exists. -/
def ownsUnique (inventory : List InventoryEntry) (storeItems : List StoreItem)
    (userId : Nat) (line : PurchaseLine) : Bool :=
  match storeItems.find? (fun si => si.id == line.itemId) with
  | none => false
  | some si =>
    si.itemType == .NON_CONSUMABLE &&
      inventory.any fun e => e.userId == userId && e.itemId == line.itemId

/-- Unique-item ownership gate (`validateNonConsumableOwnership`, step 1
of the transaction); the source throws `BadRequestException` here. -/
def validateNonConsumableOwnership (inventory : List InventoryEntry) (userId : Nat)
    (items : List PurchaseLine) (storeItems : List StoreItem) : Except Err Unit :=
  if items.any (ownsUnique inventory storeItems userId) then .error .alreadyOwned
  else .ok ()

/-- Inventory grant for one line (`addItemsToInventory` loop body):
instant functional items are skipped, consumables are upserted with a
quantity increment, non-consumables get a fresh row with quantity 1. -/
def grantLine (userId : Nat) (storeItems : List StoreItem)
    (inv : List InventoryEntry) (line : PurchaseLine) : List InventoryEntry :=
  match storeItems.find? (fun si => si.id == line.itemId) with
  | none => inv
  | some si =>
    if si.deliveryType == .FUNCTIONAL && si.instant then inv
    else if si.itemType == .CONSUMABLE then
      if inv.any (fun e => e.userId == userId && e.itemId == line.itemId) then
        inv.map fun e =>
          if e.userId == userId && e.itemId == line.itemId then
            { e with quantity := e.quantity + line.quantity }
          else e
      else inv ++ [⟨userId, line.itemId, line.quantity, false⟩]
    else inv ++ [⟨userId, line.itemId, 1, false⟩]

/-- Inventory grants for all lines (`addItemsToInventory`). -/
def addItemsToInventory (inv : List InventoryEntry) (userId : Nat)
    (items : List PurchaseLine) (storeItems : List StoreItem) : List InventoryEntry :=
  items.foldl (grantLine userId storeItems) inv

/-- Gems credited by one line: `metadata.gemAmount * quantity` when the
item is FUNCTIONAL with a truthy gem amount and `instant`, else 0. -/
def gemOf (storeItems : List StoreItem) (line : PurchaseLine) : Nat :=
  match storeItems.find? (fun si => si.id == line.itemId) with
  | none => 0
  | some si =>
    if si.deliveryType == .FUNCTIONAL && si.gemAmount != 0 && si.instant then
      si.gemAmount * line.quantity
    else 0

/-- Functional-item processing for one line (`processFunctionalItems`
loop body): credits the wallet and appends one CREDIT ledger row for an
instant gem pack; the DOUBLE_XP and membership branches only log. -/
def applyFunctionalLine (userId walletId : Nat) (storeItems : List StoreItem)
    (st : List Wallet × List WalletTx) (line : PurchaseLine) :
    List Wallet × List WalletTx :=
  match storeItems.find? (fun si => si.id == line.itemId) with
  | none => st
  | some si =>
    if si.deliveryType == .FUNCTIONAL && si.gemAmount != 0 && si.instant then
      let gem := si.gemAmount * line.quantity
      (st.1.map fun w =>
          if w.userId == userId then { w with balance := w.balance + gem } else w,
        st.2 ++ [⟨walletId, .CREDIT, gem, "Gem Pack: " ++ si.name, .gemPack si.id⟩])
    else st

/-- Functional-item processing for all lines (`processFunctionalItems`). -/
def processFunctionalItems (wallets : List Wallet) (txs : List WalletTx)
    (userId walletId : Nat) (items : List PurchaseLine)
    (storeItems : List StoreItem) : List Wallet × List WalletTx :=
  items.foldl (applyFunctionalLine userId walletId storeItems) (wallets, txs)

/-- Initial fulfillment status by delivery channel
(`getFulfillmentStatus`); the source's `default: 'PENDING'` arm is
unreachable over the four-valued enum. -/
def getFulfillmentStatus : DeliveryType → FulStatus
  | .IN_GAME => .COMPLETED
  | .FUNCTIONAL => .COMPLETED
  | .EMAIL => .PENDING
  | .SHOPIFY => .PENDING

/-- Fulfillment row created for one line (`createFulfillmentRecords`
loop body); `completedAt` is stamped exactly when the status resolves
COMPLETED. The `none` arm of the lookup is unreachable after
`validatePurchaseItems`. -/
def mkFulfillment (purchaseId userId now : Nat) (storeItems : List StoreItem)
    (line : PurchaseLine) : Fulfillment :=
  let dt := match storeItems.find? (fun si => si.id == line.itemId) with
    | none => DeliveryType.IN_GAME
    | some si => si.deliveryType
  let st := getFulfillmentStatus dt
  { purchaseId := purchaseId, userId := userId, itemId := line.itemId,
    status := st, deliveryType := dt, attempts := 0, lastAttempt := none,
    completedAt := if st == .COMPLETED then some now else none }

/-- Order line row created for one request line (step 5 of the
transaction). -/
def mkPurchaseItem (purchaseId : Nat) (storeItems : List StoreItem)
    (line : PurchaseLine) : PurchaseItem :=
  let price := match storeItems.find? (fun si => si.id == line.itemId) with
    | none => 0
    | some si => si.price
  { purchaseId := purchaseId, itemId := line.itemId, quantity := line.quantity,
    unitPrice := price, totalPrice := price * line.quantity }

/-- Atomic purchase transaction (`executePurchaseTransaction`): unique
ownership gate, conditional wallet debit, DEBIT ledger row, order row
with status COMPLETED, order lines, inventory grants, functional
credits, fulfillment rows, and the step-9 backfill of the pending
reference id. An `error` result models a rolled-back transaction. -/
def executePurchaseTransaction (db : Db) (userId : Nat) (items : List PurchaseLine)
    (storeItems : List StoreItem) (totalCost : Nat) (now pid : Nat) :
    Except Err Db := do
  validateNonConsumableOwnership db.inventory userId items storeItems
  match db.wallets.find? (fun w => w.userId == userId) with
  | none => .error .internalError
  | some w =>
    if w.balance - totalCost < 0 then .error .insufficientGemsTx
    else
      let wallets1 := db.wallets.map fun x =>
        if x.userId == userId then { x with balance := x.balance - totalCost } else x
      let txs1 := db.walletTxs ++
        [⟨w.id, .DEBIT, totalCost,
          "Purchase of " ++ toString items.length ++ " item(s)", .pending⟩]
      let purchase : Purchase := ⟨pid, userId, totalCost, .COMPLETED, now⟩
      let pItems := items.map (mkPurchaseItem pid storeItems)
      let inv2 := addItemsToInventory db.inventory userId items storeItems
      let st2 := processFunctionalItems wallets1 txs1 userId w.id items storeItems
      let fuls2 := db.fulfillments ++ items.map (mkFulfillment pid userId now storeItems)
      let txs3 := st2.snd.map fun t =>
        if t.walletId == w.id && t.referenceId == RefId.pending then
          { t with referenceId := .purchaseRef pid }
        else t
      let db' : Db :=
        { db with wallets := st2.fst, walletTxs := txs3,
                  purchases := db.purchases ++ [purchase],
                  purchaseItems := db.purchaseItems ++ pItems,
                  inventory := inv2, fulfillments := fuls2 }
      pure db'

/-- Purchase pipeline after the idempotency branch: validation, balance
pre-check against the total, then the atomic transaction. -/
def createPurchaseBody (db : Db) (userId : Nat) (items : List PurchaseLine)
    (now pid : Nat) : Except Err Db := do
  let v ← validatePurchaseItems db items
  let w ← getUserWallet db userId
  if w.balance < (v.2 : Int) then .error .insufficientGems
  else executePurchaseTransaction db userId items v.1 v.2 now pid

/-- Purchase entry point (`createPurchase`): with a truthy idempotency
key, any purchase of this user inside the trailing window aborts with
the Conflict error before anything else runs. -/
def createPurchase (db : Db) (userId : Nat) (items : List PurchaseLine)
    (idempotencyKey : Option String) (now pid : Nat) : Except Err Db :=
  if (strTruthy idempotencyKey).isSome && checkDuplicatePurchase db userId now then
    .error .duplicatePurchase
  else createPurchaseBody db userId items now pid

/-- Persisted database after a purchase attempt: the transaction's
result on success, the untouched input state on any rejection
(pre-checks throw before any write, in-transaction throws roll back). -/
def runPurchase (db : Db) (userId : Nat) (items : List PurchaseLine)
    (idempotencyKey : Option String) (now pid : Nat) : Db :=
  match createPurchase db userId items idempotencyKey now pid with
  | .ok db' => db'
  | .error _ => db

/-- Row update applied by `retryPurchase`'s `updateMany`: FAILED
fulfillments of the order move to RETRY with `attempts` incremented and
`lastAttempt` stamped; every other row is untouched. -/
def retryUpdate (purchaseId now : Nat) (f : Fulfillment) : Fulfillment :=
  if f.purchaseId == purchaseId && f.status == .FAILED then
    { f with status := .RETRY, attempts := f.attempts + 1, lastAttempt := some now }
  else f

/-- Fulfillment retry (`retryPurchase`): requires a COMPLETED order of
this user and at least one FAILED fulfillment under it, then retries
them all and returns the updated state with the retried-row count. -/
def retryPurchase (db : Db) (userId purchaseId now : Nat) : Except Err (Db × Nat) :=
  match db.purchases.find?
      (fun p => p.id == purchaseId && p.userId == userId && p.status == .COMPLETED) with
  | none => .error .purchaseNotFound
  | some _ =>
    let failed := db.fulfillments.filter fun f =>
      f.purchaseId == purchaseId && f.status == .FAILED
    if failed.isEmpty then .error .noFailedFulfillments
    else
      .ok ({ db with fulfillments := db.fulfillments.map (retryUpdate purchaseId now) },
        failed.length)

/-- Profile creation (`createCharacterProfile`): optional game existence
check, duplicate-name check within the (userId, gameId) partition, then
a new row inserted with `isActive := true` unconditionally (the source
comment reads "First character for this game/platform is active by
default", but the flag is set for every new profile). -/
def createCharacterProfile (db : Db) (userId : Nat) (name : String)
    (gameId : Option Nat) (newId : Nat) : Except Err Db := do
  match gameId with
  | some g =>
    if db.games.any (fun gm => gm.id == g && gm.isActive) then pure ()
    else .error .gameNotFound
  | none => pure ()
  if db.profiles.any
      (fun p => p.userId == userId && p.name == name && p.gameId == gameId) then
    .error .duplicateName
  else
    let db' : Db :=
      { db with profiles := db.profiles ++ [⟨newId, userId, gameId, name, true⟩] }
    pure db'

/-- Profile activation (`activateCharacterProfile`): deactivates every
other profile of the same (userId, gameId) partition, then activates the
target, in one transaction. -/
def activateCharacterProfile (db : Db) (userId profileId : Nat) : Except Err Db :=
  match db.profiles.find? (fun p => p.id == profileId && p.userId == userId) with
  | none => .error .profileNotFound
  | some prof =>
    let ps1 := db.profiles.map fun p =>
      if p.userId == userId && p.gameId == prof.gameId && p.id != profileId then
        { p with isActive := false }
      else p
    let ps2 := ps1.map fun p =>
      if p.id == profileId then { p with isActive := true } else p
    .ok { db with profiles := ps2 }

/-- Scope gate (`validateItemCompatibility`): a scope-less item equips
anywhere; a game-scoped item requires the profile's `gameId` to match. -/
def validateItemCompatibility (si : StoreItem) (profileGameId : Option Nat) :
    Except Err Unit :=
  match si.gameId with
  | none => .ok ()
  | some g => if profileGameId == some g then .ok () else .error .scopeMismatch

/-- Default slot from the item category (`slotMapping` table); the
`|| 'misc'` fallback is unreachable over the five-valued enum. -/
def slotFromCategory (si : StoreItem) : String :=
  match si.category with
  | .SKIN =>
    match strTruthy si.weaponClass with
    | some wc => wc ++ "_skin"
    | none => "primary_skin"
  | .UTILITY => "utility"
  | .CONSUMABLE => "consumable"
  | .DIGITAL_REWARD => "reward"
  | .PHYSICAL_MERCH => "merchandise"

/-- Slot derivation (`determineSlotFromItem`): a truthy
`gameSpecificData.slot` override wins, else the category mapping. -/
def determineSlotFromItem (si : StoreItem) : String :=
  match strTruthy si.slotOverride with
  | some s => s
  | none => slotFromCategory si

/-- Equip operation (`equipItem`): ownership checks, scope gate,
consumable rejection, slot resolution, then within one transaction the
deletion of any row holding the target slot and of any row referencing
this item on the profile, and the insertion of the new row. The
`internalError` arm models the foreign-key guarantee that an inventory
row always references an existing catalog item. -/
def equipItem (db : Db) (userId profileId itemId : Nat) (slot : Option String)
    (newId : Nat) : Except Err (Db × EquippedItem) := do
  match db.profiles.find? (fun p => p.id == profileId && p.userId == userId) with
  | none => .error .profileNotFound
  | some prof =>
    match db.inventory.find?
        (fun e => e.userId == userId && e.itemId == itemId && e.isConsumed == false) with
    | none => .error .itemNotInInventory
    | some _ =>
      match db.catalog.find? (fun si => si.id == itemId) with
      | none => .error .internalError
      | some si => do
        validateItemCompatibility si prof.gameId
        if si.itemType == .CONSUMABLE then .error .consumableEquip
        else
          let equipmentSlot := match strTruthy slot with
            | some s => s
            | none => determineSlotFromItem si
          let eq1 := db.equipped.filter fun e =>
            !(e.profileId == profileId && e.slot == equipmentSlot)
          let eq2 := eq1.filter fun e =>
            !(e.profileId == profileId && e.itemId == itemId)
          let row : EquippedItem := ⟨newId, profileId, itemId, equipmentSlot⟩
          pure ({ db with equipped := eq2 ++ [row] }, row)

/-- Balance observed for a user: the balance of the wallet row found by
`userId` (unique in the schema), 0 when absent. -/
def balanceOf (db : Db) (userId : Nat) : Int :=
  match db.wallets.find? (fun w => w.userId == userId) with
  | some w => w.balance
  | none => 0

/-- Total gems credited by the functional-item pass over a line list. -/
def functionalGemTotal (storeItems : List StoreItem) (items : List PurchaseLine) : Nat :=
  (items.map (gemOf storeItems)).sum

/-- CREDIT ledger rows emitted by the functional-item pass. -/
def creditRows (walletId : Nat) (storeItems : List StoreItem)
    (items : List PurchaseLine) : List WalletTx :=
  items.filterMap fun line =>
    match storeItems.find? (fun si => si.id == line.itemId) with
    | none => none
    | some si =>
      if si.deliveryType == .FUNCTIONAL && si.gemAmount != 0 && si.instant then
        some ⟨walletId, .CREDIT, si.gemAmount * line.quantity,
          "Gem Pack: " ++ si.name, .gemPack si.id⟩
      else none

/-- Equipment exclusivity invariant: no two rows share (profileId, slot)
and no two rows share (profileId, itemId). -/
def EquipInv (l : List EquippedItem) : Prop :=
  l.Pairwise fun a b =>
    ¬(a.profileId = b.profileId ∧ a.slot = b.slot) ∧
    ¬(a.profileId = b.profileId ∧ a.itemId = b.itemId)

/-- Count of active profiles in one (userId, gameId) partition. -/
def activeInPartition (db : Db) (userId : Nat) (gameId : Option Nat) : Nat :=
  (db.profiles.filter fun p =>
    p.userId == userId && p.gameId == gameId && p.isActive).length

/-- Guard under which the functional-item pass performs a wallet credit
for a line. -/
def isInstantGemLine (storeItems : List StoreItem) (line : PurchaseLine) : Bool :=
  match storeItems.find? (fun si => si.id == line.itemId) with
  | none => false
  | some si => si.deliveryType == .FUNCTIONAL && si.gemAmount != 0 && si.instant

/-- Database produced by a successful purchase transaction, replicating
the success branch of `executePurchaseTransaction` for reuse in theorem
statements. -/
def execSuccessDb (db : Db) (u : Nat) (items : List PurchaseLine)
    (storeItems : List StoreItem) (total : Nat) (w : Wallet) (now pid : Nat) : Db :=
  let wallets1 := db.wallets.map fun x =>
    if x.userId == u then { x with balance := x.balance - total } else x
  let txs1 := db.walletTxs ++
    [⟨w.id, .DEBIT, total,
      "Purchase of " ++ toString items.length ++ " item(s)", .pending⟩]
  let st2 := processFunctionalItems wallets1 txs1 u w.id items storeItems
  let txs3 := st2.snd.map fun t =>
    if t.walletId == w.id && t.referenceId == RefId.pending then
      { t with referenceId := .purchaseRef pid }
    else t
  { db with wallets := st2.fst, walletTxs := txs3,
            purchases := db.purchases ++ [⟨pid, u, total, .COMPLETED, now⟩],
            purchaseItems := db.purchaseItems ++ items.map (mkPurchaseItem pid storeItems),
            inventory := addItemsToInventory db.inventory u items storeItems,
            fulfillments := db.fulfillments ++ items.map (mkFulfillment pid u now storeItems) }

/-- Reduction of bind over a successful `Except` computation. -/
theorem exceptBind_ok {α β : Type} (a : α) (f : α → Except Err β) :
    (Except.ok a >>= f) = f a := rfl

/-- Reduction of bind over a failed `Except` computation. -/
theorem exceptBind_error {α β : Type} (e : Err) (f : α → Except Err β) :
    ((Except.error e : Except Err α) >>= f) = .error e := rfl

/-- Inversion of a successful wallet lookup. -/
theorem getUserWallet_find {db : Db} {u : Nat} {w : Wallet}
    (h : getUserWallet db u = .ok w) :
    db.wallets.find? (fun x => x.userId == u) = some w := by
  unfold getUserWallet at h
  split at h
  · cases h
  · rename_i w' hw'
    cases h
    exact hw'

/-- Reduction of `createPurchase` to the transaction once the
idempotency, validation and balance pre-checks pass. -/
theorem createPurchase_eq_tx {db : Db} {u : Nat} {items : List PurchaseLine}
    {key : Option String} {now pid : Nat} {storeItems : List StoreItem}
    {total : Nat} {w : Wallet}
    (hdup : ((strTruthy key).isSome && checkDuplicatePurchase db u now) = false)
    (hv : validatePurchaseItems db items = .ok (storeItems, total))
    (hw : getUserWallet db u = .ok w)
    (hb : (total : Int) ≤ w.balance) :
    createPurchase db u items key now pid =
      executePurchaseTransaction db u items storeItems total now pid := by
  unfold createPurchase createPurchaseBody
  rw [hdup]
  simp only [Bool.false_eq_true, if_false, hv, hw]
  show (if w.balance < (total : Int) then (Except.error Err.insufficientGems : Except Err Db)
        else executePurchaseTransaction db u items storeItems total now pid) =
      executePurchaseTransaction db u items storeItems total now pid
  rw [if_neg (not_lt.mpr hb)]

/-- Full shape of a successful purchase under all the pre-checks. -/
theorem createPurchase_ok_eq {db : Db} {u : Nat} {items : List PurchaseLine}
    {key : Option String} {now pid : Nat} {storeItems : List StoreItem}
    {total : Nat} {w : Wallet}
    (hdup : ((strTruthy key).isSome && checkDuplicatePurchase db u now) = false)
    (hv : validatePurchaseItems db items = .ok (storeItems, total))
    (hw : getUserWallet db u = .ok w)
    (hb : (total : Int) ≤ w.balance)
    (ho : validateNonConsumableOwnership db.inventory u items storeItems = .ok ()) :
    createPurchase db u items key now pid =
      .ok (execSuccessDb db u items storeItems total w now pid) := by
  rw [createPurchase_eq_tx hdup hv hw hb]
  unfold executePurchaseTransaction
  rw [ho, getUserWallet_find hw]
  show (if w.balance - (total : Int) < 0 then (Except.error Err.insufficientGemsTx : Except Err Db)
        else _) = _
  rw [if_neg (not_lt.mpr (sub_nonneg.mpr hb))]
  rfl

/-- Wallet searches commute with row updates that keep `userId`. -/
theorem find?_map_of_userId_eq (l : List Wallet) (u : Nat) (f : Wallet → Wallet)
    (hf : ∀ x, (f x).userId = x.userId) :
    (l.map f).find? (fun x => x.userId == u) =
      (l.find? (fun x => x.userId == u)).map f := by
  induction l with
  | nil => rfl
  | cons x xs ih =>
    simp only [List.map_cons, List.find?_cons]
    rw [hf x]
    cases hx : (x.userId == u) <;> simp [hx, ih]

/-- Step behaviour of the functional pass on a line whose item is not
among the resolved store items. -/
theorem applyFunctionalLine_none {sis : List StoreItem} {line : PurchaseLine}
    (u wid : Nat) (st : List Wallet × List WalletTx)
    (hfind : sis.find? (fun si => si.id == line.itemId) = none) :
    applyFunctionalLine u wid sis st line = st := by
  simp only [applyFunctionalLine, hfind]

/-- Step behaviour of the functional pass on a resolved line that does
not satisfy the instant-gem guard. -/
theorem applyFunctionalLine_miss {sis : List StoreItem} {line : PurchaseLine}
    {si : StoreItem} (u wid : Nat) (st : List Wallet × List WalletTx)
    (hfind : sis.find? (fun si => si.id == line.itemId) = some si)
    (hc : ¬(si.deliveryType == DeliveryType.FUNCTIONAL && si.gemAmount != 0 && si.instant) = true) :
    applyFunctionalLine u wid sis st line = st := by
  simp only [applyFunctionalLine, hfind]
  rw [if_neg hc]

/-- Step behaviour of the functional pass on an instant gem-pack line. -/
theorem applyFunctionalLine_hit {sis : List StoreItem} {line : PurchaseLine}
    {si : StoreItem} (u wid : Nat) (ws : List Wallet) (txs : List WalletTx)
    (hfind : sis.find? (fun si => si.id == line.itemId) = some si)
    (hc : (si.deliveryType == DeliveryType.FUNCTIONAL && si.gemAmount != 0 && si.instant) = true) :
    applyFunctionalLine u wid sis (ws, txs) line =
      (ws.map fun w =>
          if w.userId == u then
            { w with balance := w.balance + ((si.gemAmount * line.quantity : Nat) : Int) }
          else w,
        txs ++ [⟨wid, .CREDIT, si.gemAmount * line.quantity,
          "Gem Pack: " ++ si.name, .gemPack si.id⟩]) := by
  simp only [applyFunctionalLine, hfind]
  rw [if_pos hc]

/-- Per-line gem amount under the three step cases. -/
theorem gemOf_none {sis : List StoreItem} {line : PurchaseLine}
    (hfind : sis.find? (fun si => si.id == line.itemId) = none) :
    gemOf sis line = 0 := by
  simp only [gemOf, hfind]

theorem gemOf_miss {sis : List StoreItem} {line : PurchaseLine} {si : StoreItem}
    (hfind : sis.find? (fun si => si.id == line.itemId) = some si)
    (hc : ¬(si.deliveryType == DeliveryType.FUNCTIONAL && si.gemAmount != 0 && si.instant) = true) :
    gemOf sis line = 0 := by
  simp only [gemOf, hfind]
  rw [if_neg hc]

theorem gemOf_hit {sis : List StoreItem} {line : PurchaseLine} {si : StoreItem}
    (hfind : sis.find? (fun si => si.id == line.itemId) = some si)
    (hc : (si.deliveryType == DeliveryType.FUNCTIONAL && si.gemAmount != 0 && si.instant) = true) :
    gemOf sis line = si.gemAmount * line.quantity := by
  simp only [gemOf, hfind]
  rw [if_pos hc]

/-- Auxiliary balance-update map used to state the functional pass's
effect on the wallet table. -/
def addBal (u : Nat) (d : Nat) (ws : List Wallet) : List Wallet :=
  ws.map fun x =>
    if x.userId == u then { x with balance := x.balance + (d : Int) } else x

theorem addBal_zero (u : Nat) (ws : List Wallet) : addBal u 0 ws = ws := by
  unfold addBal
  have h0 : (fun x : Wallet =>
      if x.userId == u then { x with balance := x.balance + ((0 : Nat) : Int) } else x) =
      fun x => x := by
    funext x
    cases hx : (x.userId == u) <;> simp [hx]
  rw [h0]
  simp

theorem addBal_addBal (u : Nat) (a b : Nat) (ws : List Wallet) :
    addBal u a (addBal u b ws) = addBal u (b + a) ws := by
  unfold addBal
  rw [List.map_map]
  apply List.map_congr_left
  intro x _
  simp only [Function.comp]
  cases hx : (x.userId == u) with
  | false => simp [hx]
  | true =>
    simp only [hx, if_true]
    congr 1
    push_cast
    ring

/-- Wallet list after the functional pass: every wallet row of the buyer
is credited by the total instant-gem amount, all others untouched. -/
theorem processFunctionalItems_fst (items : List PurchaseLine) (ws : List Wallet)
    (txs : List WalletTx) (u wid : Nat) (sis : List StoreItem) :
    (processFunctionalItems ws txs u wid items sis).fst =
      addBal u (functionalGemTotal sis items) ws := by
  induction items generalizing ws txs with
  | nil =>
    have : functionalGemTotal sis [] = 0 := rfl
    rw [this, addBal_zero]
    rfl
  | cons line rest ih =>
    have hgem : functionalGemTotal sis (line :: rest) =
        gemOf sis line + functionalGemTotal sis rest := by
      simp [functionalGemTotal]
    simp only [processFunctionalItems, List.foldl_cons] at ih ⊢
    cases hfind : sis.find? (fun si => si.id == line.itemId) with
    | none =>
      rw [applyFunctionalLine_none u wid (ws, txs) hfind, ih, hgem, gemOf_none hfind,
        Nat.zero_add]
    | some si =>
      by_cases hc : (si.deliveryType == DeliveryType.FUNCTIONAL && si.gemAmount != 0 && si.instant) = true
      · rw [applyFunctionalLine_hit u wid ws txs hfind hc, ih, hgem, gemOf_hit hfind hc]
        exact addBal_addBal u (functionalGemTotal sis rest) _ ws
      · rw [applyFunctionalLine_miss u wid (ws, txs) hfind hc, ih, hgem,
          gemOf_miss hfind hc, Nat.zero_add]

/-- Ledger rows after the functional pass: the input rows followed by
one CREDIT row per instant-gem line. -/
theorem processFunctionalItems_snd (items : List PurchaseLine) (ws : List Wallet)
    (txs : List WalletTx) (u wid : Nat) (sis : List StoreItem) :
    (processFunctionalItems ws txs u wid items sis).snd =
      txs ++ creditRows wid sis items := by
  induction items generalizing ws txs with
  | nil => simp [processFunctionalItems, creditRows]
  | cons line rest ih =>
    simp only [processFunctionalItems, List.foldl_cons] at ih ⊢
    cases hfind : sis.find? (fun si => si.id == line.itemId) with
    | none =>
      rw [applyFunctionalLine_none u wid (ws, txs) hfind, ih]
      simp [creditRows, hfind]
    | some si =>
      by_cases hc : (si.deliveryType == DeliveryType.FUNCTIONAL && si.gemAmount != 0 && si.instant) = true
      · rw [applyFunctionalLine_hit u wid ws txs hfind hc, ih]
        simp only [creditRows, List.filterMap_cons, hfind]
        rw [if_pos hc]
        simp [creditRows, List.append_assoc]
      · rw [applyFunctionalLine_miss u wid (ws, txs) hfind hc, ih]
        simp only [creditRows, List.filterMap_cons, hfind]
        rw [if_neg hc]

/-- Every row emitted by the functional pass is a CREDIT row tagged with
a gem-pack reference, and its amount is positive when all quantities are
at least 1. -/
theorem creditRows_facts (wid : Nat) (sis : List StoreItem)
    (items : List PurchaseLine) (hq : ∀ line ∈ items, 1 ≤ line.quantity) :
    ∀ t ∈ creditRows wid sis items,
      t.txType = .CREDIT ∧ 0 < t.amount ∧ ∃ i, t.referenceId = .gemPack i := by
  intro t ht
  simp only [creditRows, List.mem_filterMap] at ht
  obtain ⟨line, hline, hsome⟩ := ht
  split at hsome
  · cases hsome
  · rename_i si hfind
    split at hsome
    · rename_i hc
      cases hsome
      refine ⟨rfl, ?_, ⟨si.id, rfl⟩⟩
      have hga : si.gemAmount ≠ 0 := by
        simp only [Bool.and_eq_true, bne_iff_ne, ne_eq] at hc
        exact hc.1.2
      exact Nat.mul_pos (Nat.pos_of_ne_zero hga) (hq line hline)
    · cases hsome

/-- Count of credit rows: one per line satisfying the instant-gem guard. -/
theorem creditRows_length (wid : Nat) (sis : List StoreItem)
    (items : List PurchaseLine) :
    (creditRows wid sis items).length =
      (items.filter (isInstantGemLine sis)).length := by
  induction items with
  | nil => rfl
  | cons line rest ih =>
    simp only [creditRows, List.filterMap_cons, List.filter_cons] at ih ⊢
    cases hfind : sis.find? (fun si => si.id == line.itemId) with
    | none => simpa [isInstantGemLine, hfind] using ih
    | some si =>
      by_cases hc : (si.deliveryType == DeliveryType.FUNCTIONAL && si.gemAmount != 0 && si.instant) = true
      · simp only [hfind]
        rw [if_pos hc]
        have hg : isInstantGemLine sis line = true := by
          simp only [isInstantGemLine, hfind]
          exact hc
        simp only [hg, if_true, List.length_cons]
        simpa [creditRows] using ih
      · simp only [hfind]
        rw [if_neg hc]
        have hg : isInstantGemLine sis line = false := by
          simp only [isInstantGemLine, hfind]
          exact Bool.not_eq_true _ ▸ (by simpa using hc)
        simp only [hg, Bool.false_eq_true, if_false]
        simpa [creditRows] using ih

/-- Every line of a list whose cost fold succeeds has a successful line
cost, whatever the accumulator. -/
theorem foldCost_ok {sis : List StoreItem} :
    ∀ (items : List PurchaseLine) (acc t : Nat),
      items.foldlM (fun acc line => do
        let c ← lineCost sis line
        pure (acc + c)) acc = .ok t →
      ∀ line ∈ items, ∃ c, lineCost sis line = .ok c := by
  intro items
  induction items with
  | nil =>
    intro acc t h line hl
    cases hl
  | cons x xs ih =>
    intro acc t h line hl
    rw [List.foldlM_cons] at h
    cases hx : lineCost sis x with
    | error e =>
      rw [hx, exceptBind_error] at h
      cases h
    | ok c =>
      rw [hx, exceptBind_ok] at h
      cases hl with
      | head => exact ⟨c, hx⟩
      | tail _ hl' => exact ih (acc + c) t h line hl'

/-- A successful line cost certifies a resolvable item and a quantity in
the validated range, with quantity 1 for a non-consumable. -/
theorem lineCost_ok_facts {sis : List StoreItem} {line : PurchaseLine} {c : Nat}
    (h : lineCost sis line = .ok c) :
    ∃ si, sis.find? (fun si => si.id == line.itemId) = some si ∧
      1 ≤ line.quantity ∧ line.quantity ≤ 100 ∧
      (si.itemType = .NON_CONSUMABLE → line.quantity = 1) ∧
      c = si.price * line.quantity := by
  unfold lineCost at h
  split at h
  · cases h
  · rename_i si hfind
    split at h
    · cases h
    · rename_i hq
      split at h
      · cases h
      · rename_i hnc
        cases h
        simp only [Bool.or_eq_true, not_or, beq_iff_eq, decide_eq_true_eq] at hq
        refine ⟨si, hfind, ?_, ?_, ?_, rfl⟩
        · exact Nat.one_le_iff_ne_zero.mpr (by
            intro h0
            exact hq.1 (by simpa using h0))
        · exact Nat.le_of_not_lt (by
            intro hlt
            exact hq.2 (by simpa using hlt))
        · intro hty
          by_contra hne
          exact hnc (by simp [hty, hne])

/-- Validation success certifies per-line facts: each line resolves to a
store item among the returned ones with quantity in [1, 100], quantity 1
when non-consumable. -/
theorem validatePurchaseItems_facts {db : Db} {items : List PurchaseLine}
    {sis : List StoreItem} {total : Nat}
    (h : validatePurchaseItems db items = .ok (sis, total)) :
    ∀ line ∈ items, ∃ si,
      sis.find? (fun si => si.id == line.itemId) = some si ∧
      1 ≤ line.quantity ∧ line.quantity ≤ 100 ∧
      (si.itemType = .NON_CONSUMABLE → line.quantity = 1) := by
  intro line hl
  unfold validatePurchaseItems at h
  split at h
  · cases h
  · simp only [] at h
    split at h
    · cases h
    · generalize hST : List.filter
          (fun si => (List.map (fun x => x.itemId) items).contains si.id && si.isActive)
          db.catalog = ST at h
      unfold totalCostOf at h
      cases hf : items.foldlM (fun acc line => do
          let c ← lineCost ST line
          pure (acc + c)) 0 with
      | error e =>
        rw [hf, exceptBind_error] at h
        cases h
      | ok t =>
        rw [hf, exceptBind_ok] at h
        cases h
        obtain ⟨c, hc⟩ := foldCost_ok items 0 total hf line hl
        obtain ⟨si, hfind, h1, h100, hnc, _⟩ := lineCost_ok_facts hc
        exact ⟨si, hfind, h1, h100, hnc⟩

/-- Reference tags of the functional pass's rows, independent of any
validation assumption. -/
theorem creditRows_refId (wid : Nat) (sis : List StoreItem)
    (items : List PurchaseLine) :
    ∀ t ∈ creditRows wid sis items, ∃ i, t.referenceId = .gemPack i := by
  intro t ht
  simp only [creditRows, List.mem_filterMap] at ht
  obtain ⟨line, _, hsome⟩ := ht
  split at hsome
  · cases hsome
  · split at hsome
    · rename_i si _ _
      cases hsome
      exact ⟨si.id, rfl⟩
    · cases hsome

/-- Ledger after a successful purchase: the pre-existing rows untouched
(no committed state carries the pending placeholder), then the single
DEBIT row of the order total with its reference backfilled to the new
purchase id, then the functional CREDIT rows. -/
theorem execSuccessDb_walletTxs (db : Db) (u : Nat) (items : List PurchaseLine)
    (sis : List StoreItem) (total : Nat) (w : Wallet) (now pid : Nat)
    (hclean : ∀ t ∈ db.walletTxs, t.referenceId ≠ RefId.pending) :
    (execSuccessDb db u items sis total w now pid).walletTxs =
      db.walletTxs ++
        (⟨w.id, .DEBIT, total,
            "Purchase of " ++ toString items.length ++ " item(s)", .purchaseRef pid⟩ ::
          creditRows w.id sis items) := by
  show ((processFunctionalItems _ (db.walletTxs ++
      [⟨w.id, .DEBIT, total,
        "Purchase of " ++ toString items.length ++ " item(s)", .pending⟩])
      u w.id items sis).snd.map _) = _
  rw [processFunctionalItems_snd, List.append_assoc, List.map_append, List.map_append]
  have h1 : db.walletTxs.map (fun t =>
      if t.walletId == w.id && t.referenceId == RefId.pending then
        { t with referenceId := RefId.purchaseRef pid }
      else t) = db.walletTxs := by
    rw [List.map_congr_left (fun t ht => ?_), List.map_id]
    have : (t.referenceId == RefId.pending) = false :=
      beq_eq_false_iff_ne.mpr (hclean t ht)
    simp [this]
  have h2 : (creditRows w.id sis items).map (fun t =>
      if t.walletId == w.id && t.referenceId == RefId.pending then
        { t with referenceId := RefId.purchaseRef pid }
      else t) = creditRows w.id sis items := by
    rw [List.map_congr_left (fun t ht => ?_), List.map_id]
    obtain ⟨i, hi⟩ := creditRows_refId w.id sis items t ht
    have : (t.referenceId == RefId.pending) = false := by
      rw [hi]
      rfl
    simp [this]
  rw [h1, h2]
  simp only [List.map_cons, List.map_nil, beq_self_eq_true, Bool.and_self, if_true,
    List.singleton_append]

/-- Balance after a successful purchase: the old balance, minus the
total, plus the instant-gem credits. -/
theorem execSuccessDb_balance (db : Db) (u : Nat) (items : List PurchaseLine)
    (sis : List StoreItem) (total : Nat) (w : Wallet) (now pid : Nat)
    (hw : getUserWallet db u = .ok w) :
    balanceOf (execSuccessDb db u items sis total w now pid) u =
      w.balance - total + (functionalGemTotal sis items : Int) := by
  have hfind := getUserWallet_find hw
  have hwu : (w.userId == u) = true := by
    have := List.find?_some hfind
    simpa using this
  show (match ((processFunctionalItems (db.wallets.map fun x =>
      if x.userId == u then { x with balance := x.balance - total } else x) _
      u w.id items sis).fst.find? fun x => x.userId == u) with
    | some w => w.balance
    | none => 0) = _
  rw [processFunctionalItems_fst]
  unfold addBal
  rw [find?_map_of_userId_eq _ u _ (fun x => by
      cases hx : (x.userId == u) <;> simp [hx]),
    find?_map_of_userId_eq _ u _ (fun x => by
      cases hx : (x.userId == u) <;> simp [hx]),
    hfind]
  have hwu' : w.userId = u := by simpa using hwu
  simp [hwu']

/-- Quantities certified by validation, in the form the credit-row facts
need. -/
theorem validate_quantities {db : Db} {items : List PurchaseLine}
    {sis : List StoreItem} {total : Nat}
    (hv : validatePurchaseItems db items = .ok (sis, total)) :
    ∀ line ∈ items, 1 ≤ line.quantity := by
  intro line hl
  obtain ⟨si, _, h1, _⟩ := validatePurchaseItems_facts hv line hl
  exact h1

/-- Concrete store item used by the purchase witnesses. -/
def wItem : StoreItem :=
  ⟨1, "Sword", 500, .CONSUMABLE, .IN_GAME, .SKIN, true, 0, false, none, none, none⟩

/-- Concrete database used by the purchase witnesses: one catalog item
and one wallet with balance 1000. -/
def wDb : Db := ⟨[wItem], [], [⟨10, 1, 1000⟩], [], [], [], [], [], [], []⟩

/-- C1: for every purchase request whose total is at most the wallet
balance with all items valid, `createPurchase` succeeds, debits the
wallet by exactly the total through exactly one DEBIT ledger row of that
amount (the final balance additionally reflects instant functional
credits), creates exactly one COMPLETED order whose `totalAmount` is the
total, and creates exactly one order line and one fulfillment row per
input line. -/
theorem purchase_success_effects
    (db : Db) (u : Nat) (items : List PurchaseLine) (key : Option String)
    (now pid : Nat) (storeItems : List StoreItem) (total : Nat) (w : Wallet)
    (hdup : ((strTruthy key).isSome && checkDuplicatePurchase db u now) = false)
    (hv : validatePurchaseItems db items = .ok (storeItems, total))
    (hw : getUserWallet db u = .ok w)
    (hb : (total : Int) ≤ w.balance)
    (ho : validateNonConsumableOwnership db.inventory u items storeItems = .ok ())
    (hclean : ∀ t ∈ db.walletTxs, t.referenceId ≠ RefId.pending) :
    ∃ db', createPurchase db u items key now pid = .ok db' ∧
      balanceOf db' u = w.balance - total + (functionalGemTotal storeItems items : Int) ∧
      ((db'.walletTxs.drop db.walletTxs.length).filter
          (fun t => t.txType == TxType.DEBIT)).map (fun t => t.amount) = [total] ∧
      db'.purchases = db.purchases ++ [⟨pid, u, total, .COMPLETED, now⟩] ∧
      db'.purchaseItems.length = db.purchaseItems.length + items.length ∧
      db'.fulfillments.length = db.fulfillments.length + items.length := by
  refine ⟨_, createPurchase_ok_eq hdup hv hw hb ho,
    execSuccessDb_balance db u items storeItems total w now pid hw, ?_, rfl, ?_, ?_⟩
  · rw [execSuccessDb_walletTxs db u items storeItems total w now pid hclean,
      List.drop_left]
    have hcred : (creditRows w.id storeItems items).filter
        (fun t => t.txType == TxType.DEBIT) = [] := by
      rw [List.filter_eq_nil_iff]
      intro t ht
      obtain ⟨hC, _, _⟩ :=
        creditRows_facts w.id storeItems items (validate_quantities hv) t ht
      simp [hC]
    rw [List.filter_cons_of_pos (by rfl), hcred]
    rfl
  · simp [execSuccessDb]
  · simp [execSuccessDb]

/-- Witness for C1 at a concrete database: buying quantity 2 of a
500-gem consumable from a 1000-gem wallet. -/
theorem purchase_success_effects_witness :
    ((1000 : Nat) : Int) ≤ (Wallet.mk 10 1 1000).balance ∧
    (∃ db', createPurchase wDb 1 [⟨1, 2⟩] none 1000000 77 = .ok db' ∧
      balanceOf db' 1 = (Wallet.mk 10 1 1000).balance - (1000 : Nat) +
        (functionalGemTotal [wItem] [⟨1, 2⟩] : Int) ∧
      ((db'.walletTxs.drop wDb.walletTxs.length).filter
          (fun t => t.txType == TxType.DEBIT)).map (fun t => t.amount) = [1000] ∧
      db'.purchases = wDb.purchases ++ [⟨77, 1, 1000, .COMPLETED, 1000000⟩] ∧
      db'.purchaseItems.length = wDb.purchaseItems.length + [(⟨1, 2⟩ : PurchaseLine)].length ∧
      db'.fulfillments.length = wDb.fulfillments.length + [(⟨1, 2⟩ : PurchaseLine)].length) :=
  ⟨by decide,
    purchase_success_effects wDb 1 [⟨1, 2⟩] none 1000000 77 [wItem] 1000
      ⟨10, 1, 1000⟩ rfl rfl rfl (by decide) rfl (by simp [wDb])⟩

/-- C2: a purchase whose total exceeds the wallet balance is rejected by
the pre-check with the dedicated insufficient-funds error (the one throw
site reporting required and available amounts), and the persisted state
is exactly the input state: no order, line, fulfillment, inventory or
ledger row, and an unchanged balance. -/
theorem insufficient_funds_rejects
    (db : Db) (u : Nat) (items : List PurchaseLine) (key : Option String)
    (now pid : Nat) (storeItems : List StoreItem) (total : Nat) (w : Wallet)
    (hdup : ((strTruthy key).isSome && checkDuplicatePurchase db u now) = false)
    (hv : validatePurchaseItems db items = .ok (storeItems, total))
    (hw : getUserWallet db u = .ok w)
    (hb : w.balance < (total : Int)) :
    createPurchase db u items key now pid = .error .insufficientGems ∧
    runPurchase db u items key now pid = db := by
  have h1 : createPurchase db u items key now pid = .error .insufficientGems := by
    unfold createPurchase createPurchaseBody
    rw [hdup]
    simp only [Bool.false_eq_true, if_false, hv, hw]
    show (if w.balance < (total : Int) then (Except.error Err.insufficientGems : Except Err Db)
          else executePurchaseTransaction db u items storeItems total now pid) =
        Except.error Err.insufficientGems
    rw [if_pos hb]
  refine ⟨h1, ?_⟩
  unfold runPurchase
  rw [h1]

/-- Witness for C2: buying quantity 3 of the 500-gem item from a
1000-gem wallet (total 1500) is rejected and persists nothing. -/
theorem insufficient_funds_rejects_witness :
    (Wallet.mk 10 1 1000).balance < ((1500 : Nat) : Int) ∧
    (createPurchase wDb 1 [⟨1, 3⟩] none 1000000 77 = .error .insufficientGems ∧
      runPurchase wDb 1 [⟨1, 3⟩] none 1000000 77 = wDb) :=
  ⟨by decide,
    insufficient_funds_rejects wDb 1 [⟨1, 3⟩] none 1000000 77 [wItem] 1500
      ⟨10, 1, 1000⟩ rfl rfl rfl (by decide)⟩

/-- C8: a successful purchase creates exactly one fulfillment row per
line, whose delivery channel is the item's and whose initial status is
COMPLETED with `completedAt` stamped for IN_GAME (INSTANT) and
FUNCTIONAL channels, and PENDING with no `completedAt` for EMAIL and
SHOPIFY (EXTERNAL_SHIP) channels. -/
theorem fulfillment_status_by_channel
    (db : Db) (u : Nat) (items : List PurchaseLine) (key : Option String)
    (now pid : Nat) (storeItems : List StoreItem) (total : Nat) (w : Wallet)
    (hdup : ((strTruthy key).isSome && checkDuplicatePurchase db u now) = false)
    (hv : validatePurchaseItems db items = .ok (storeItems, total))
    (hw : getUserWallet db u = .ok w)
    (hb : (total : Int) ≤ w.balance)
    (ho : validateNonConsumableOwnership db.inventory u items storeItems = .ok ()) :
    ∃ db', createPurchase db u items key now pid = .ok db' ∧
      db'.fulfillments = db.fulfillments ++ items.map (mkFulfillment pid u now storeItems) ∧
      ∀ line ∈ items, ∃ si,
        storeItems.find? (fun si => si.id == line.itemId) = some si ∧
        (mkFulfillment pid u now storeItems line).deliveryType = si.deliveryType ∧
        ((si.deliveryType = .IN_GAME ∨ si.deliveryType = .FUNCTIONAL) →
          (mkFulfillment pid u now storeItems line).status = .COMPLETED ∧
          (mkFulfillment pid u now storeItems line).completedAt = some now) ∧
        ((si.deliveryType = .EMAIL ∨ si.deliveryType = .SHOPIFY) →
          (mkFulfillment pid u now storeItems line).status = .PENDING ∧
          (mkFulfillment pid u now storeItems line).completedAt = none) := by
  refine ⟨_, createPurchase_ok_eq hdup hv hw hb ho, rfl, ?_⟩
  intro line hl
  obtain ⟨si, hfind, _⟩ := validatePurchaseItems_facts hv line hl
  refine ⟨si, hfind, ?_, ?_, ?_⟩
  · simp [mkFulfillment, hfind]
  · intro hdt
    cases hdt with
    | inl h => constructor <;> simp [mkFulfillment, hfind, h, getFulfillmentStatus]
    | inr h => constructor <;> simp [mkFulfillment, hfind, h, getFulfillmentStatus]
  · intro hdt
    cases hdt with
    | inl h => constructor <;> simp [mkFulfillment, hfind, h, getFulfillmentStatus]
    | inr h => constructor <;> simp [mkFulfillment, hfind, h, getFulfillmentStatus]

/-- Witness for C8 at the concrete one-line purchase of an IN_GAME item. -/
theorem fulfillment_status_by_channel_witness :
    ((1000 : Nat) : Int) ≤ (Wallet.mk 10 1 1000).balance ∧
    (∃ db', createPurchase wDb 1 [⟨1, 2⟩] (some "key-1") 1000000 77 = .ok db' ∧
      db'.fulfillments = wDb.fulfillments ++
        [(⟨1, 2⟩ : PurchaseLine)].map (mkFulfillment 77 1 1000000 [wItem]) ∧
      ∀ line ∈ [(⟨1, 2⟩ : PurchaseLine)], ∃ si,
        [wItem].find? (fun si => si.id == line.itemId) = some si ∧
        (mkFulfillment 77 1 1000000 [wItem] line).deliveryType = si.deliveryType ∧
        ((si.deliveryType = .IN_GAME ∨ si.deliveryType = .FUNCTIONAL) →
          (mkFulfillment 77 1 1000000 [wItem] line).status = .COMPLETED ∧
          (mkFulfillment 77 1 1000000 [wItem] line).completedAt = some 1000000) ∧
        ((si.deliveryType = .EMAIL ∨ si.deliveryType = .SHOPIFY) →
          (mkFulfillment 77 1 1000000 [wItem] line).status = .PENDING ∧
          (mkFulfillment 77 1 1000000 [wItem] line).completedAt = none)) :=
  ⟨by decide,
    fulfillment_status_by_channel wDb 1 [⟨1, 2⟩] (some "key-1") 1000000 77 [wItem] 1000
      ⟨10, 1, 1000⟩ rfl rfl rfl (by decide) rfl⟩

/-- Concrete zero-priced instant gem pack and a database holding it. -/
def gemItem : StoreItem :=
  ⟨2, "Gems", 0, .CONSUMABLE, .FUNCTIONAL, .UTILITY, true, 1000, true, none, none, none⟩

def gemDb : Db := ⟨[gemItem], [], [⟨10, 1, 0⟩], [], [], [], [], [], [], []⟩

/-- Counterexample to C10 as stated: buying a zero-priced gem pack
commits a DEBIT WalletTransaction row with amount 0, so not every
written row has amount strictly greater than 0. -/
theorem zero_amount_debit_row :
    ∃ db', createPurchase gemDb 1 [⟨2, 1⟩] none 0 77 = .ok db' ∧
      db'.walletTxs.map (fun t => (t.txType, t.amount)) =
        [(TxType.DEBIT, 0), (TxType.CREDIT, 1000)] :=
  ⟨_, rfl, rfl⟩

/-- C10 (amended): a successful purchase appends exactly one DEBIT row
whose amount is the order total (zero when the total is zero, since the
row is written unconditionally) and one CREDIT row per instant-gem line;
every CREDIT row has strictly positive amount; pre-existing ledger rows
are untouched. -/
theorem walletTx_rows_spec
    (db : Db) (u : Nat) (items : List PurchaseLine) (key : Option String)
    (now pid : Nat) (storeItems : List StoreItem) (total : Nat) (w : Wallet)
    (hdup : ((strTruthy key).isSome && checkDuplicatePurchase db u now) = false)
    (hv : validatePurchaseItems db items = .ok (storeItems, total))
    (hw : getUserWallet db u = .ok w)
    (hb : (total : Int) ≤ w.balance)
    (ho : validateNonConsumableOwnership db.inventory u items storeItems = .ok ())
    (hclean : ∀ t ∈ db.walletTxs, t.referenceId ≠ RefId.pending) :
    ∃ db', createPurchase db u items key now pid = .ok db' ∧
      db'.walletTxs = db.walletTxs ++
        (⟨w.id, .DEBIT, total,
            "Purchase of " ++ toString items.length ++ " item(s)", .purchaseRef pid⟩ ::
          creditRows w.id storeItems items) ∧
      (∀ t ∈ creditRows w.id storeItems items, t.txType = .CREDIT ∧ 0 < t.amount) ∧
      (creditRows w.id storeItems items).length =
        (items.filter (isInstantGemLine storeItems)).length := by
  refine ⟨_, createPurchase_ok_eq hdup hv hw hb ho,
    execSuccessDb_walletTxs db u items storeItems total w now pid hclean,
    fun t ht => ?_, creditRows_length w.id storeItems items⟩
  obtain ⟨h1, h2, _⟩ :=
    creditRows_facts w.id storeItems items (validate_quantities hv) t ht
  exact ⟨h1, h2⟩

/-- Witness for the amended C10 at the zero-priced gem-pack purchase. -/
theorem walletTx_rows_spec_witness :
    ((0 : Nat) : Int) ≤ (Wallet.mk 10 1 0).balance ∧
    (∃ db', createPurchase gemDb 1 [⟨2, 1⟩] none 0 77 = .ok db' ∧
      db'.walletTxs = gemDb.walletTxs ++
        (⟨10, .DEBIT, 0,
            "Purchase of " ++ toString [(⟨2, 1⟩ : PurchaseLine)].length ++ " item(s)",
            .purchaseRef 77⟩ ::
          creditRows 10 [gemItem] [⟨2, 1⟩]) ∧
      (∀ t ∈ creditRows 10 [gemItem] [⟨2, 1⟩], t.txType = .CREDIT ∧ 0 < t.amount) ∧
      (creditRows 10 [gemItem] [⟨2, 1⟩]).length =
        ([(⟨2, 1⟩ : PurchaseLine)].filter (isInstantGemLine [gemItem])).length) :=
  ⟨by decide,
    walletTx_rows_spec gemDb 1 [⟨2, 1⟩] none 0 77 [gemItem] 0
      ⟨10, 1, 0⟩ rfl rfl rfl (by decide) rfl (by simp [gemDb])⟩

/-- Concrete unique item and a database in which account 1 already owns
it. -/
def uniqItem : StoreItem :=
  ⟨3, "Crown", 50, .NON_CONSUMABLE, .IN_GAME, .SKIN, true, 0, false, none, none, none⟩

def ownedDb : Db :=
  ⟨[uniqItem], [], [⟨10, 1, 1000⟩], [], [], [], [⟨1, 3, 1, false⟩], [], [], []⟩

/-- Counterexample to C3 as stated: re-buying an owned unique item is
rejected, but the throw site is a `BadRequestException` (the
InvalidRequest class), not the Conflict class the claim names. -/
theorem unique_conflict_class_counterexample :
    createPurchase ownedDb 1 [⟨3, 1⟩] none 0 77 = .error .alreadyOwned ∧
    Err.excClass .alreadyOwned = .BadRequestE ∧
    Err.excClass .alreadyOwned ≠ .ConflictE :=
  ⟨rfl, rfl, by decide⟩

/-- C3 (amended): a purchase containing an already-owned unique
(NON_CONSUMABLE) item is rejected — with the BadRequest-class
already-owned error, not Conflict — leaving the state untouched, and
when the account does not own it the grant appends exactly one inventory
row with quantity 1. -/
theorem unique_ownership_gate
    (db : Db) (u : Nat) (items : List PurchaseLine) (key : Option String)
    (now pid : Nat) (storeItems : List StoreItem) (total : Nat) (w : Wallet)
    (hdup : ((strTruthy key).isSome && checkDuplicatePurchase db u now) = false)
    (hv : validatePurchaseItems db items = .ok (storeItems, total))
    (hw : getUserWallet db u = .ok w)
    (hb : (total : Int) ≤ w.balance) :
    (items.any (ownsUnique db.inventory storeItems u) = true →
      createPurchase db u items key now pid = .error .alreadyOwned ∧
      runPurchase db u items key now pid = db ∧
      Err.excClass .alreadyOwned = .BadRequestE) ∧
    (∀ line si, storeItems.find? (fun s => s.id == line.itemId) = some si →
      si.itemType = .NON_CONSUMABLE →
      ¬(si.deliveryType = .FUNCTIONAL ∧ si.instant = true) →
      ∀ inv, grantLine u storeItems inv line = inv ++ [⟨u, line.itemId, 1, false⟩]) := by
  constructor
  · intro hown
    have h1 : createPurchase db u items key now pid = .error .alreadyOwned := by
      rw [createPurchase_eq_tx hdup hv hw hb]
      unfold executePurchaseTransaction validateNonConsumableOwnership
      rw [if_pos hown]
      rfl
    refine ⟨h1, ?_, rfl⟩
    unfold runPurchase
    rw [h1]
  · intro line si hfind hty hni inv
    simp only [grantLine, hfind]
    have hc1 : (si.deliveryType == DeliveryType.FUNCTIONAL && si.instant) = false := by
      cases hdt : (si.deliveryType == DeliveryType.FUNCTIONAL) with
      | false => simp [hdt]
      | true =>
        cases hin : si.instant with
        | false => simp [hdt, hin]
        | true => exact absurd ⟨by simpa using hdt, hin⟩ hni
    have hc2 : (si.itemType == ItemType.CONSUMABLE) = false := by
      rw [hty]
      rfl
    simp [hc1, hc2]

/-- Witness for the amended C3: the rejection on the owned-crown
database and the quantity-1 grant for the unowned case. -/
theorem unique_ownership_gate_witness :
    ([(⟨3, 1⟩ : PurchaseLine)].any (ownsUnique ownedDb.inventory [uniqItem] 1) = true) ∧
    (createPurchase ownedDb 1 [⟨3, 1⟩] none 0 77 = .error .alreadyOwned ∧
      runPurchase ownedDb 1 [⟨3, 1⟩] none 0 77 = ownedDb ∧
      Err.excClass .alreadyOwned = .BadRequestE) ∧
    grantLine 1 [uniqItem] [] ⟨3, 1⟩ = [] ++ [⟨1, 3, 1, false⟩] := by
  have hmain := unique_ownership_gate ownedDb 1 [⟨3, 1⟩] none 0 77 [uniqItem] 50
    ⟨10, 1, 1000⟩ rfl rfl rfl (by decide)
  exact ⟨by decide, hmain.1 (by decide), hmain.2 ⟨3, 1⟩ uniqItem rfl rfl (by decide) []⟩

/-- Database for the profile-creation bug: account 1 already has an
active platform-wide profile. -/
def c4Db : Db := ⟨[], [], [], [], [], [], [], [], [⟨1, 1, none, "A", true⟩], []⟩

/-- C4 evaluation at the failing input: creating a second platform-wide
profile leaves two profiles with `isActive = true` in the same
(accountId, scope) partition, violating the single-active invariant the
claim states for every committed operation. -/
theorem profile_creation_two_active :
    ∃ db', createCharacterProfile c4Db 1 "B" none 2 = .ok db' ∧
      activeInPartition db' 1 none = 2 :=
  ⟨_, rfl, rfl⟩

/-- Errors of a single line-cost check are never the duplicate-purchase
conflict. -/
theorem lineCost_error_ne_dup {sis : List StoreItem} {line : PurchaseLine} {e : Err}
    (h : lineCost sis line = .error e) : e ≠ .duplicatePurchase := by
  unfold lineCost at h
  split at h
  · cases h
    decide
  · split at h
    · cases h
      decide
    · split at h
      · cases h
        decide
      · cases h

/-- Errors of the cost fold are never the duplicate-purchase conflict. -/
theorem foldCost_error_ne_dup {sis : List StoreItem} :
    ∀ (items : List PurchaseLine) (acc : Nat) (e : Err),
      items.foldlM (fun acc line => do
        let c ← lineCost sis line
        pure (acc + c)) acc = .error e →
      e ≠ .duplicatePurchase := by
  intro items
  induction items with
  | nil =>
    intro acc e h
    cases h
  | cons x xs ih =>
    intro acc e h
    rw [List.foldlM_cons] at h
    cases hx : lineCost sis x with
    | error e' =>
      rw [hx, exceptBind_error] at h
      cases h
      exact lineCost_error_ne_dup hx
    | ok c =>
      rw [hx, exceptBind_ok] at h
      exact ih (acc + c) e h

/-- Errors of request validation are never the duplicate-purchase
conflict. -/
theorem validatePurchaseItems_error_ne_dup {db : Db} {items : List PurchaseLine}
    {e : Err} (h : validatePurchaseItems db items = .error e) :
    e ≠ .duplicatePurchase := by
  unfold validatePurchaseItems at h
  split at h
  · cases h
    decide
  · simp only [] at h
    split at h
    · cases h
      decide
    · generalize hST : List.filter
          (fun si => (List.map (fun x => x.itemId) items).contains si.id && si.isActive)
          db.catalog = ST at h
      unfold totalCostOf at h
      cases hf : items.foldlM (fun acc line => do
          let c ← lineCost ST line
          pure (acc + c)) 0 with
      | error e' =>
        rw [hf, exceptBind_error] at h
        cases h
        exact foldCost_error_ne_dup items 0 e hf
      | ok t =>
        rw [hf, exceptBind_ok] at h
        cases h

/-- Errors of the wallet lookup are never the duplicate-purchase
conflict. -/
theorem getUserWallet_error_ne_dup {db : Db} {u : Nat} {e : Err}
    (h : getUserWallet db u = .error e) : e ≠ .duplicatePurchase := by
  unfold getUserWallet at h
  split at h
  · cases h
    decide
  · cases h

/-- Errors of the atomic transaction are never the duplicate-purchase
conflict. -/
theorem executePurchaseTransaction_error_ne_dup {db : Db} {u : Nat}
    {items : List PurchaseLine} {sis : List StoreItem} {total now pid : Nat} {e : Err}
    (h : executePurchaseTransaction db u items sis total now pid = .error e) :
    e ≠ .duplicatePurchase := by
  unfold executePurchaseTransaction validateNonConsumableOwnership at h
  split at h
  · rw [exceptBind_error] at h
    cases h
    decide
  · rw [exceptBind_ok] at h
    split at h
    · cases h
      decide
    · split at h
      · cases h
        decide
      · cases h

/-- The pipeline after the idempotency branch never reports the
duplicate-purchase conflict. -/
theorem createPurchaseBody_ne_dup (db : Db) (u : Nat) (items : List PurchaseLine)
    (now pid : Nat) :
    createPurchaseBody db u items now pid ≠ .error .duplicatePurchase := by
  intro h
  unfold createPurchaseBody at h
  cases hv : validatePurchaseItems db items with
  | error e =>
    rw [hv, exceptBind_error] at h
    cases h
    exact validatePurchaseItems_error_ne_dup hv rfl
  | ok v =>
    rw [hv, exceptBind_ok] at h
    cases hw : getUserWallet db u with
    | error e =>
      rw [hw, exceptBind_error] at h
      cases h
      exact getUserWallet_error_ne_dup hw rfl
    | ok w =>
      rw [hw, exceptBind_ok] at h
      split at h
      · cases h
      · exact executePurchaseTransaction_error_ne_dup h rfl

/-- C6: with a truthy idempotency key, `createPurchase` rejects with the
duplicate-purchase Conflict exactly when some order of this account was
recorded in the trailing five-minute window — whatever key, if any, that
order carried (orders store no key at all) — and with no key supplied
the suppression branch is skipped entirely: the call equals the
remaining pipeline. -/
theorem idempotency_window_spec :
    (∀ (db : Db) (u : Nat) (items : List PurchaseLine) (k : String) (now pid : Nat),
      k ≠ "" →
      (createPurchase db u items (some k) now pid = .error .duplicatePurchase ↔
        ∃ p ∈ db.purchases, p.userId = u ∧ now - 300000 ≤ p.createdAt)) ∧
    (∀ (db : Db) (u : Nat) (items : List PurchaseLine) (now pid : Nat),
      createPurchase db u items none now pid = createPurchaseBody db u items now pid) := by
  constructor
  · intro db u items k now pid hk
    have hts : (strTruthy (some k)).isSome = true := by
      show (if k.isEmpty = true then none else some k).isSome = true
      rw [if_neg (fun hh => hk ((String.isEmpty_iff k).mp hh))]
      rfl
    constructor
    · intro h
      by_contra hno
      cases hchk : checkDuplicatePurchase db u now with
      | true =>
        apply hno
        unfold checkDuplicatePurchase at hchk
        rw [List.any_eq_true] at hchk
        obtain ⟨p, hp, hcond⟩ := hchk
        simp only [Bool.and_eq_true, beq_iff_eq, decide_eq_true_eq] at hcond
        exact ⟨p, hp, hcond.1, hcond.2⟩
      | false =>
        unfold createPurchase at h
        rw [hts, hchk] at h
        simp only [Bool.and_false, Bool.false_eq_true, if_false] at h
        exact createPurchaseBody_ne_dup db u items now pid h
    · intro hex
      obtain ⟨p, hp, hpu, hpt⟩ := hex
      have hchk : checkDuplicatePurchase db u now = true := by
        unfold checkDuplicatePurchase
        rw [List.any_eq_true]
        exact ⟨p, hp, by simp [hpu, hpt]⟩
      unfold createPurchase
      rw [hts, hchk]
      rfl
  · intro db u items now pid
    rfl

/-- Database with a recent order of account 1, for the C6 witness. -/
def dupDb : Db := { wDb with purchases := [⟨5, 1, 10, .COMPLETED, 900000⟩] }

/-- Witness for C6: a nonempty key plus one order 100 seconds old
triggers the Conflict; with no key the pipeline runs unchecked. -/
theorem idempotency_window_spec_witness :
    ("k" ≠ "") ∧
    (createPurchase dupDb 1 [⟨1, 1⟩] (some "k") 1000000 77 = .error .duplicatePurchase ↔
      ∃ p ∈ dupDb.purchases, p.userId = 1 ∧ 1000000 - 300000 ≤ p.createdAt) ∧
    (createPurchase dupDb 1 [⟨1, 1⟩] none 1000000 77 =
      createPurchaseBody dupDb 1 [⟨1, 1⟩] 1000000 77) :=
  ⟨by decide,
    idempotency_window_spec.1 dupDb 1 [⟨1, 1⟩] "k" 1000000 77 (by decide),
    idempotency_window_spec.2 dupDb 1 [⟨1, 1⟩] 1000000 77⟩

/-- Database whose only order of account 1 exists but has status FAILED,
with one FAILED fulfillment under it. -/
def c7Db : Db :=
  ⟨[], [], [], [], [⟨5, 1, 10, .FAILED, 0⟩], [], [],
    [⟨5, 1, 1, .FAILED, .EMAIL, 0, none, none⟩], [], []⟩

/-- Counterexample to C7 as stated: retrying an order that exists but is
not COMPLETED — even with a FAILED fulfillment waiting — is rejected
with the NotFound-class error, not the InvalidRequest class the claim
names. -/
theorem retry_not_completed_counterexample :
    c7Db.purchases = [⟨5, 1, 10, .FAILED, 0⟩] ∧
    (c7Db.fulfillments.filter
      (fun f => f.purchaseId == 5 && f.status == FulStatus.FAILED)).length = 1 ∧
    retryPurchase c7Db 1 5 123 = .error .purchaseNotFound ∧
    Err.excClass .purchaseNotFound ≠ .BadRequestE :=
  ⟨rfl, rfl, rfl, by decide⟩

/-- C7 (amended): `retryPurchase` rejects with the NotFound-class error
when no COMPLETED order of this account matches (including an existing
order in another status), with the InvalidRequest-class error when the
order matches but has zero FAILED fulfillments, and otherwise moves
every FAILED fulfillment of the order to RETRY with `attempts`
incremented and `lastAttempt` stamped, leaves every other fulfillment
untouched, and returns the count of retried rows. -/
theorem retry_spec (db : Db) (u pid now : Nat) :
    (db.purchases.find?
        (fun p => p.id == pid && p.userId == u && p.status == PurchaseStatus.COMPLETED) =
          none →
      retryPurchase db u pid now = .error .purchaseNotFound ∧
      Err.excClass .purchaseNotFound = .NotFoundE) ∧
    (∀ pr, db.purchases.find?
        (fun p => p.id == pid && p.userId == u && p.status == PurchaseStatus.COMPLETED) =
          some pr →
      (db.fulfillments.filter
          (fun f => f.purchaseId == pid && f.status == FulStatus.FAILED) = [] →
        retryPurchase db u pid now = .error .noFailedFulfillments ∧
        Err.excClass .noFailedFulfillments = .BadRequestE) ∧
      (db.fulfillments.filter
          (fun f => f.purchaseId == pid && f.status == FulStatus.FAILED) ≠ [] →
        retryPurchase db u pid now =
          .ok ({ db with fulfillments := db.fulfillments.map (retryUpdate pid now) },
            (db.fulfillments.filter
              (fun f => f.purchaseId == pid && f.status == FulStatus.FAILED)).length) ∧
        (∀ f : Fulfillment, f.purchaseId = pid → f.status = .FAILED →
          retryUpdate pid now f =
            { f with status := .RETRY, attempts := f.attempts + 1,
                     lastAttempt := some now }) ∧
        (∀ f : Fulfillment, ¬(f.purchaseId = pid ∧ f.status = .FAILED) →
          retryUpdate pid now f = f))) := by
  constructor
  · intro hn
    refine ⟨?_, rfl⟩
    unfold retryPurchase
    rw [hn]
  · intro pr hs
    constructor
    · intro hemp
      refine ⟨?_, rfl⟩
      unfold retryPurchase
      rw [hs]
      show (if (db.fulfillments.filter
            (fun f => f.purchaseId == pid && f.status == FulStatus.FAILED)).isEmpty = true
          then (Except.error Err.noFailedFulfillments : Except Err (Db × Nat))
          else _) = _
      rw [if_pos (by rw [hemp]; rfl)]
    · intro hne
      refine ⟨?_, ?_, ?_⟩
      · unfold retryPurchase
        rw [hs]
        show (if (db.fulfillments.filter
              (fun f => f.purchaseId == pid && f.status == FulStatus.FAILED)).isEmpty = true
            then (Except.error Err.noFailedFulfillments : Except Err (Db × Nat))
            else _) = _
        rw [if_neg (by
          intro hh
          exact hne (List.isEmpty_iff.mp hh))]
      · intro f h1 h2
        unfold retryUpdate
        rw [if_pos (by simp [h1, h2])]
      · intro f hno
        unfold retryUpdate
        rw [if_neg (by
          intro hh
          simp only [Bool.and_eq_true, beq_iff_eq] at hh
          exact hno hh)]

/-- Database with a COMPLETED order of account 1 holding one FAILED and
one COMPLETED fulfillment, for the C7 witness. -/
def retryDb : Db :=
  ⟨[], [], [], [], [⟨5, 1, 10, .COMPLETED, 0⟩], [], [],
    [⟨5, 1, 1, .FAILED, .EMAIL, 0, none, none⟩,
     ⟨5, 1, 2, .COMPLETED, .IN_GAME, 0, none, some 0⟩], [], []⟩

/-- Witness for the amended C7: the NotFound case on an absent order,
the InvalidRequest case on an order with no FAILED rows, and the
successful retry of the failed row on `retryDb`. -/
theorem retry_spec_witness :
    (c7Db.purchases.find?
        (fun p => p.id == 5 && p.userId == 1 && p.status == PurchaseStatus.COMPLETED) =
          none) ∧
    (retryPurchase c7Db 1 5 123 = .error .purchaseNotFound ∧
      Err.excClass .purchaseNotFound = .NotFoundE) ∧
    (retryDb.fulfillments.filter
        (fun f => f.purchaseId == 5 && f.status == FulStatus.FAILED) ≠ []) ∧
    (retryPurchase retryDb 1 5 123 =
        .ok ({ retryDb with fulfillments := retryDb.fulfillments.map (retryUpdate 5 123) },
          (retryDb.fulfillments.filter
            (fun f => f.purchaseId == 5 && f.status == FulStatus.FAILED)).length) ∧
      (∀ f : Fulfillment, f.purchaseId = 5 → f.status = .FAILED →
        retryUpdate 5 123 f =
          { f with status := .RETRY, attempts := f.attempts + 1,
                   lastAttempt := some 123 }) ∧
      (∀ f : Fulfillment, ¬(f.purchaseId = 5 ∧ f.status = .FAILED) →
        retryUpdate 5 123 f = f)) := by
  refine ⟨rfl, (retry_spec c7Db 1 5 123).1 rfl, by decide, ?_⟩
  exact ((retry_spec retryDb 1 5 123).2 ⟨5, 1, 10, .COMPLETED, 0⟩ rfl).2 (by decide)

/-- C9: the equip scope gate accepts every scope-less item whatever the
profile's scope, and `equipItem` rejects with the BadRequest-class
scope-mismatch error whenever the item is scoped to a game different
from the profile's scope — including a game-scoped item on a
platform-wide profile. -/
theorem scope_compatibility_spec :
    (∀ (si : StoreItem) (pg : Option Nat), si.gameId = none →
      validateItemCompatibility si pg = .ok ()) ∧
    (∀ (db : Db) (u pid i : Nat) (slot : Option String) (nid : Nat)
        (prof : CharacterProfile) (si : StoreItem) (g : Nat),
      db.profiles.find? (fun p => p.id == pid && p.userId == u) = some prof →
      (∃ e, db.inventory.find?
          (fun e => e.userId == u && e.itemId == i && e.isConsumed == false) = some e) →
      db.catalog.find? (fun s => s.id == i) = some si →
      si.gameId = some g → prof.gameId ≠ some g →
      equipItem db u pid i slot nid = .error .scopeMismatch ∧
      Err.excClass .scopeMismatch = .BadRequestE) := by
  constructor
  · intro si pg h
    unfold validateItemCompatibility
    rw [h]
  · intro db u pid i slot nid prof si g hp hinv hc hg hne
    obtain ⟨e, he⟩ := hinv
    have hv : validateItemCompatibility si prof.gameId = .error .scopeMismatch := by
      unfold validateItemCompatibility
      rw [hg]
      show (if (prof.gameId == some g) = true then Except.ok ()
            else Except.error Err.scopeMismatch) = Except.error Err.scopeMismatch
      rw [if_neg (by simp [hne])]
    refine ⟨?_, rfl⟩
    unfold equipItem
    rw [hp, he, hc]
    show (validateItemCompatibility si prof.gameId >>= fun _ => _) = _
    rw [hv, exceptBind_error]

/-- Concrete data for the C9 witness: a game-scoped skin owned by
account 1 and a platform-wide profile. -/
def scopedItem : StoreItem :=
  ⟨4, "GameSkin", 10, .NON_CONSUMABLE, .IN_GAME, .SKIN, true, 0, false, some 9, none, none⟩

def scopeDb : Db :=
  ⟨[scopedItem], [], [], [], [], [], [⟨1, 4, 1, false⟩], [],
    [⟨2, 1, none, "P", true⟩], []⟩

/-- Witness for C9: the scope-less acceptance at both scopes and the
rejection of the game-9 skin on the platform-wide profile. -/
theorem scope_compatibility_spec_witness :
    validateItemCompatibility wItem none = .ok () ∧
    validateItemCompatibility wItem (some 9) = .ok () ∧
    (equipItem scopeDb 1 2 4 none 50 = .error .scopeMismatch ∧
      Err.excClass .scopeMismatch = .BadRequestE) :=
  ⟨scope_compatibility_spec.1 wItem none rfl,
    scope_compatibility_spec.1 wItem (some 9) rfl,
    scope_compatibility_spec.2 scopeDb 1 2 4 none 50 ⟨2, 1, none, "P", true⟩
      scopedItem 9 rfl ⟨⟨1, 4, 1, false⟩, rfl⟩ rfl rfl (by decide)⟩

/-- Inversion of a successful equip: the new row carries the requested
profile, item and fresh id; the equipment table is the old one purged of
the target slot and of the item on this profile, plus the new row; an
explicitly supplied non-empty slot is the one used. -/
theorem equipItem_ok_shape {db : Db} {u pid i : Nat} {slot : Option String}
    {nid : Nat} {db' : Db} {row : EquippedItem}
    (h : equipItem db u pid i slot nid = .ok (db', row)) :
    row.profileId = pid ∧ row.itemId = i ∧
    db'.equipped = ((db.equipped.filter fun e =>
        !(e.profileId == pid && e.slot == row.slot)).filter fun e =>
        !(e.profileId == pid && e.itemId == i)) ++ [row] ∧
    (∀ s, s ≠ "" → slot = some s → row.slot = s) := by
  unfold equipItem at h
  split at h
  · cases h
  · split at h
    · cases h
    · split at h
      · cases h
      · rename_i _ prof _ _ _ _ _ si _
        cases hvc : validateItemCompatibility si prof.gameId with
        | error e' =>
          rw [hvc, exceptBind_error] at h
          cases h
        | ok uu =>
          rw [hvc, exceptBind_ok] at h
          split at h
          · cases h
          · cases h
            refine ⟨rfl, rfl, rfl, ?_⟩
            intro s hs hsome
            subst hsome
            show (match strTruthy (some s) with
              | some s' => s'
              | none => determineSlotFromItem si) = s
            have hts : strTruthy (some s) = some s := by
              show (if s.isEmpty = true then none else some s) = some s
              rw [if_neg (fun hh => hs ((String.isEmpty_iff s).mp hh))]
            rw [hts]

/-- C5: every committed equip preserves the slot/item exclusivity
invariant on `EquippedItem` rows, and equipping item A into a slot and
then item B into the same slot on the same profile leaves the slot
holding only item B's row, with item A no longer equipped anywhere on
that profile. -/
theorem equip_exclusivity :
    (∀ (db : Db) (u pid i : Nat) (slot : Option String) (nid : Nat)
        (db' : Db) (row : EquippedItem),
      EquipInv db.equipped →
      equipItem db u pid i slot nid = .ok (db', row) →
      EquipInv db'.equipped) ∧
    (∀ (db : Db) (u pid iA iB : Nat) (s : String) (nidA nidB : Nat)
        (db1 db2 : Db) (rowA rowB : EquippedItem),
      iA ≠ iB → s ≠ "" →
      equipItem db u pid iA (some s) nidA = .ok (db1, rowA) →
      equipItem db1 u pid iB (some s) nidB = .ok (db2, rowB) →
      db2.equipped.filter (fun e => e.profileId == pid && e.slot == s) = [rowB] ∧
      db2.equipped.filter (fun e => e.profileId == pid && e.itemId == iA) = []) := by
  constructor
  · intro db u pid i slot nid db' row hInv h
    obtain ⟨hpidr, hitemr, heq, _⟩ := equipItem_ok_shape h
    unfold EquipInv at hInv ⊢
    rw [heq, List.pairwise_append]
    refine ⟨List.Pairwise.sublist
      ((List.filter_sublist _).trans (List.filter_sublist _)) hInv,
      List.pairwise_singleton _ _, ?_⟩
    intro a ha b hb
    rw [List.mem_singleton] at hb
    subst hb
    rw [List.mem_filter] at ha
    obtain ⟨ha1, hp2⟩ := ha
    rw [List.mem_filter] at ha1
    obtain ⟨_, hp1⟩ := ha1
    constructor
    · intro hcon
      obtain ⟨hpp, hss⟩ := hcon
      rw [hpidr] at hpp
      simp [hpp, hss] at hp1
    · intro hcon
      obtain ⟨hpp, hii⟩ := hcon
      rw [hpidr] at hpp
      rw [hitemr] at hii
      simp [hpp, hii] at hp2
  · intro db u pid iA iB s nidA nidB db1 db2 rowA rowB hne hs h1 h2
    obtain ⟨hApid, hAitem, hAeq, hAslot⟩ := equipItem_ok_shape h1
    obtain ⟨hBpid, hBitem, hBeq, hBslot⟩ := equipItem_ok_shape h2
    have hAs : rowA.slot = s := hAslot s hs rfl
    have hBs : rowB.slot = s := hBslot s hs rfl
    constructor
    · rw [hBeq, List.filter_append]
      have hleft : ((db1.equipped.filter fun e =>
          !(e.profileId == pid && e.slot == rowB.slot)).filter fun e =>
          !(e.profileId == pid && e.itemId == iB)).filter
            (fun e => e.profileId == pid && e.slot == s) = [] := by
        rw [List.filter_eq_nil_iff]
        intro e he hq
        rw [List.mem_filter] at he
        obtain ⟨he1, _⟩ := he
        rw [List.mem_filter] at he1
        obtain ⟨_, hp1⟩ := he1
        rw [hBs] at hp1
        simp only [Bool.and_eq_true, beq_iff_eq] at hq
        simp [hq.1, hq.2] at hp1
      rw [hleft]
      have hsing : List.filter (fun e => e.profileId == pid && e.slot == s) [rowB] =
          [rowB] := by
        have hp : ((rowB.profileId == pid && rowB.slot == s) : Bool) = true := by
          simp [hBpid, hBs]
        simp [List.filter, hp]
      rw [hsing]
      rfl
    · rw [hBeq, List.filter_append]
      have hright : List.filter (fun e => e.profileId == pid && e.itemId == iA) [rowB] =
          [] := by
        have hp : ((rowB.itemId == iA) : Bool) = false := by
          rw [hBitem]
          exact beq_eq_false_iff_ne.mpr (Ne.symm hne)
        simp [List.filter, hp]
      have hleft : ((db1.equipped.filter fun e =>
          !(e.profileId == pid && e.slot == rowB.slot)).filter fun e =>
          !(e.profileId == pid && e.itemId == iB)).filter
            (fun e => e.profileId == pid && e.itemId == iA) = [] := by
        rw [List.filter_eq_nil_iff]
        intro e he hq
        simp only [Bool.and_eq_true, beq_iff_eq] at hq
        rw [List.mem_filter] at he
        obtain ⟨he1, _⟩ := he
        rw [List.mem_filter] at he1
        obtain ⟨hedb1, hp1⟩ := he1
        rw [hAeq, List.mem_append] at hedb1
        cases hedb1 with
        | inl hin =>
          rw [List.mem_filter] at hin
          obtain ⟨_, hq2⟩ := hin
          simp [hq.1, hq.2] at hq2
        | inr hin =>
          rw [List.mem_singleton] at hin
          subst hin
          rw [hBs] at hp1
          simp [hApid, hAs] at hp1
      rw [hleft, hright]
      rfl

/-- Concrete items, profile and inventory for the C5 witness. -/
def itemA : StoreItem :=
  ⟨5, "SkinA", 10, .NON_CONSUMABLE, .IN_GAME, .SKIN, true, 0, false, none, none, none⟩

def itemB : StoreItem :=
  ⟨6, "SkinB", 10, .NON_CONSUMABLE, .IN_GAME, .SKIN, true, 0, false, none, none, none⟩

def eqDb : Db :=
  ⟨[itemA, itemB], [], [], [], [], [], [⟨1, 5, 1, false⟩, ⟨1, 6, 1, false⟩], [],
    [⟨2, 1, none, "P", true⟩], []⟩

def eqDb1 : Db := { eqDb with equipped := [⟨100, 2, 5, "S"⟩] }

def eqDb2 : Db := { eqDb with equipped := [⟨101, 2, 6, "S"⟩] }

/-- Witness for C5: equipping SkinA then SkinB into slot "S" on the same
profile, with the invariant preserved and the slot ending up holding
only SkinB. -/
theorem equip_exclusivity_witness :
    EquipInv eqDb.equipped ∧ (5 : Nat) ≠ 6 ∧ "S" ≠ "" ∧
    equipItem eqDb 1 2 5 (some "S") 100 = .ok (eqDb1, ⟨100, 2, 5, "S"⟩) ∧
    equipItem eqDb1 1 2 6 (some "S") 101 = .ok (eqDb2, ⟨101, 2, 6, "S"⟩) ∧
    EquipInv eqDb1.equipped ∧
    (eqDb2.equipped.filter (fun e => e.profileId == 2 && e.slot == "S") =
      [⟨101, 2, 6, "S"⟩] ∧
    eqDb2.equipped.filter (fun e => e.profileId == 2 && e.itemId == 5) = []) :=
  ⟨List.Pairwise.nil, by decide, by decide, rfl, rfl,
    equip_exclusivity.1 eqDb 1 2 5 (some "S") 100 eqDb1 ⟨100, 2, 5, "S"⟩
      List.Pairwise.nil rfl,
    equip_exclusivity.2 eqDb 1 2 5 6 "S" 100 101 eqDb1 eqDb2
      ⟨100, 2, 5, "S"⟩ ⟨101, 2, 6, "S"⟩ (by decide) (by decide) rfl rfl⟩

end BattleBucks
